import Mathlib

/-!
Shallow embedding of `src/http/http_server.rs` (the blur HTTP server core).

The file embeds, as pure Lean functions with explicit state passing:
  * the block contexts (`HttpServerContext`, and the spec-level models of the
    externally defined `HttpProcessor`, `HttpLocationContext`, SSL material);
  * the configuration-tree node type `ConfigContext`;
  * the directive handlers `handle_create_server`, `handle_set_listen`,
    `handle_set_server_name`;
  * the build step `HttpServer.new` (Rust panics become `Except.error`);
  * the accept-loop worker body spawned by `HttpServer.start`;
  * the per-connection path `handle_connection`.

External I/O outcomes (socket bind, TLS material parsing, stream reads and
writes, accept results) are supplied as explicit oracle inputs, so every
definition is executable on concrete data.
-/

/-- Modelled from the spec: `HttpVersion` (`http::http_type`, not under `src/`)
is treated as an opaque version tag with a default value. -/
structure HttpVersion where
  tag : Nat
deriving DecidableEq, Repr

instance : Inhabited HttpVersion := ⟨⟨0⟩⟩

/-- Modelled from the spec: the external `HttpProcessor` route table
(`core::processor`, not under `src/`).  The spec fixes its boundary: the core
only appends `(path, status_code, handler)` entries via `add_handler` and
queries `is_empty`; handlers themselves are opaque and represented by `Nat`
identifiers. -/
structure HttpProcessor where
  handlers : List (String × Nat × Nat)
deriving DecidableEq, Repr

/-- `HttpProcessor::new()`: an empty route table. -/
def HttpProcessor.new : HttpProcessor := ⟨[]⟩

/-- `add_handler(path, code, handler)`: appends one route-table entry. -/
def HttpProcessor.add_handler (p : HttpProcessor) (path : String) (code handler : Nat) :
    HttpProcessor :=
  ⟨p.handlers ++ [(path, code, handler)]⟩

/-- `is_empty()`: whether the route table has no entries. -/
def HttpProcessor.is_empty (p : HttpProcessor) : Bool := p.handlers.isEmpty

/-- Whether the processor has some handler registered for `(path, code)`. -/
def HttpProcessor.has_handler (p : HttpProcessor) (path : String) (code : Nat) : Bool :=
  p.handlers.any fun e => e.1 = path && e.2.1 = code

/-- Modelled from the spec: `HttpLocationContext` (`http::http_location`, not
under `src/`) accumulates `(status_code, handler)` pairs. -/
structure HttpLocationContext where
  handlers : List (Nat × Nat)
deriving DecidableEq, Repr

/-- `take_handlers()`: the destructive one-shot take — returns the accumulated
pairs together with the emptied context left behind. -/
def HttpLocationContext.take_handlers (l : HttpLocationContext) :
    List (Nat × Nat) × HttpLocationContext :=
  (l.handlers, ⟨[]⟩)

/-- `HttpServerContext` (src/http/http_server.rs:88-93).  The Rust struct wraps
each field in a `Mutex`; the embedding is single-threaded state passing, so the
fields are plain values. -/
structure HttpServerContext where
  listen : String
  server_names : List String
  http_version : HttpVersion
  processor : HttpProcessor
deriving DecidableEq, Repr

/-- `HttpServerContext::new()` (src/http/http_server.rs:96-103). -/
def HttpServerContext.new : HttpServerContext :=
  { listen := "127.0.0.1:8080"
    server_names := []
    http_version := default
    processor := HttpProcessor.new }

/-- `set_listen` (src/http/http_server.rs:105-109). -/
def HttpServerContext.set_listen (s : HttpServerContext) (addr : String) : HttpServerContext :=
  { s with listen := addr }

/-- `add_server_name` (src/http/http_server.rs:115-119). -/
def HttpServerContext.add_server_name (s : HttpServerContext) (name : String) :
    HttpServerContext :=
  { s with server_names := s.server_names ++ [name] }

/-- `get_http_version` (src/http/http_server.rs:121-123). -/
def HttpServerContext.get_http_version (s : HttpServerContext) : HttpVersion :=
  s.http_version

/-- Modelled from the spec: the block-type tag (`TypeId` in the source). -/
inductive BlockTypeId where
  | httpCtx
  | httpServerCtx
deriving DecidableEq, Repr

/-- The object a node's type-erased `current_ctx` pointer can point at.  The
source stores a raw `*mut u8` recovered by unsafe casts; following the spec's
design note, the embedding is a tagged union of the known block-context kinds.
The ssl child context is opaque to this file (only its presence is tested), so
it carries no payload. -/
inductive CtxObj where
  | server (s : HttpServerContext)
  | location (l : HttpLocationContext)
  | sslData
deriving DecidableEq, Repr

/-- Modelled from the spec: the `ConfigContext` tree node
(`core::config::config_context`, not under `src/`; field list from spec §3 and
from the accesses in src/http/http_server.rs).  `current_ctx` models the
optional `AtomicPtr` slot: the outer `Option` is presence of the slot, the
inner `Option` is a non-null vs null pointer value. -/
inductive ConfigContext : Type where
  | mk (block_name : String) (block_args : List String) (current_cmd_args : List String)
      (current_ctx : Option (Option CtxObj)) (current_block_type_id : Option BlockTypeId)
      (children : List ConfigContext) : ConfigContext

def ConfigContext.block_name : ConfigContext → String
  | .mk n _ _ _ _ _ => n

def ConfigContext.block_args : ConfigContext → List String
  | .mk _ a _ _ _ _ => a

def ConfigContext.current_cmd_args : ConfigContext → List String
  | .mk _ _ c _ _ _ => c

def ConfigContext.current_ctx : ConfigContext → Option (Option CtxObj)
  | .mk _ _ _ o _ _ => o

def ConfigContext.current_block_type_id : ConfigContext → Option BlockTypeId
  | .mk _ _ _ _ t _ => t

def ConfigContext.children : ConfigContext → List ConfigContext
  | .mk _ _ _ _ _ ch => ch

/-- Replace the `current_ctx` slot of a node. -/
def ConfigContext.setCtx : ConfigContext → Option (Option CtxObj) → ConfigContext
  | .mk n a c _ t ch, o => .mk n a c o t ch

/-- Replace the `current_block_type_id` of a node. -/
def ConfigContext.setBlockType : ConfigContext → Option BlockTypeId → ConfigContext
  | .mk n a c o _ ch, t => .mk n a c o t ch

/-- The fatal outcomes of the embedded code.  Rust `panic!`/`unwrap`/`expect`
failures and the undefined behaviour of dereferencing a null or mismatched
type-erased pointer are all modelled as `Except.error` of this type. -/
inductive Panic where
  | missingServerCtx
  | invalidServerCtx
  | locationMissingPath
  | invalidLocationCtx
  | sslPemKeyFailed
  | sslInvalidKey
  | sslPemCertFailed
  | sslInvalidCert
  | sslSingleCertFailed
  | bindFailed
  | unwrapNone
deriving DecidableEq, Repr

/-- `handle_create_server` (src/http/http_server.rs:50-56): allocate a fresh
`HttpServerContext`, store its handle in `current_ctx`, tag the block type. -/
def handle_create_server (ctx : ConfigContext) : ConfigContext :=
  (ctx.setCtx (some (some (.server HttpServerContext.new)))).setBlockType
    (some .httpServerCtx)

/-- `handle_set_listen` (src/http/http_server.rs:59-68).  The source first
unwraps `current_cmd_args.first()` (panic when empty), then writes through the
context pointer only when the slot is present and non-null.  An unsafe cast to
a mismatched context type is undefined behaviour in the source and is modelled
as a fatal error. -/
def handle_set_listen (ctx : ConfigContext) : Except Panic ConfigContext :=
  match ctx.current_cmd_args.head? with
  | none => .error .unwrapNone
  | some listen =>
    match ctx.current_ctx with
    | some (some (.server s)) =>
        .ok (ctx.setCtx (some (some (.server (s.set_listen listen)))))
    | some (some _) => .error .invalidServerCtx
    | some none => .ok ctx
    | none => .ok ctx

/-- `handle_set_server_name` (src/http/http_server.rs:71-80): same shape as
`handle_set_listen`, appending a server name instead. -/
def handle_set_server_name (ctx : ConfigContext) : Except Panic ConfigContext :=
  match ctx.current_cmd_args.head? with
  | none => .error .unwrapNone
  | some name =>
    match ctx.current_ctx with
    | some (some (.server s)) =>
        .ok (ctx.setCtx (some (some (.server (s.add_server_name name)))))
    | some (some _) => .error .invalidServerCtx
    | some none => .ok ctx
    | none => .ok ctx

/-- Model of Rust `str::trim` as used on `block_name`
(src/http/http_server.rs:158): drop leading and trailing whitespace.  Lean's
built-in `String.trim` is defined by well-founded recursion and does not
evaluate by `decide`, so the equivalent list-of-chars form is used. -/
def rustTrim (s : String) : String :=
  ⟨((s.data.dropWhile Char.isWhitespace).reverse.dropWhile Char.isWhitespace).reverse⟩

/-- Modelled from the spec: the two fallible PEM exports of the `HttpSSL`
material (`http::http_ssl`, not under `src/`):
`cert_key.pri_key.private_key_to_pem_pkcs8()` and `cert.cert.to_pem()`. -/
structure HttpSSLMaterial where
  pem_key_result : Except Unit (List Nat)
  pem_cert_result : Except Unit (List Nat)

/-- A successfully bound listener; `TcpListener::bind(addr)` on success yields
a socket bound to exactly `addr`. -/
structure Listener where
  addr : String
deriving DecidableEq, Repr

/-- The external collaborators of the build step, supplied as oracles:
`HttpSSL::from_config`, the rustls PEM parsers, the rustls
`ServerConfig` builder (`with_single_cert`, whose result is an opaque `Nat`
id), and whether `TcpListener::bind` succeeds on a given address. -/
structure Externals where
  from_config : ConfigContext → Except Unit HttpSSLMaterial
  key_from_pem_slice : List Nat → Except Unit Nat
  cert_from_pem_slice : List Nat → Except Unit Nat
  with_single_cert : List Nat → Nat → Except Unit Nat
  bindOk : String → Bool

/-- One iteration of the child-block loop of `HttpServer::new`
(src/http/http_server.rs:157-206).  State is the server context's processor
under construction together with the `ssl_config` local.

`location` branch: the first positional argument is unwrapped before the
context slot is examined (`expect` at line 164), so a missing path is fatal
even for a location child with no context; a present slot is dereferenced
without a null check (`Arc::from_raw`), so a null or mismatched pointer is
undefined behaviour, modelled fatal.  `ssl` branch: guarded only by
`current_ctx.is_some()`; a `from_config` failure is logged and skipped, but
every later failure (`unwrap`/`expect` on the PEM round-trip and on
`with_single_cert`) panics.  Other block names are ignored. -/
def processChild (e : Externals) (st : HttpProcessor × Option Nat) (child : ConfigContext) :
    Except Panic (HttpProcessor × Option Nat) :=
  if rustTrim child.block_name = "location" then
    match child.block_args.head? with
    | none => .error .locationMissingPath
    | some path =>
      match child.current_ctx with
      | none => .ok st
      | some none => .error .invalidLocationCtx
      | some (some (.location l)) =>
          .ok ((l.take_handlers.1.foldl (fun p pr => p.add_handler path pr.1 pr.2) st.1), st.2)
      | some (some _) => .error .invalidLocationCtx
  else if rustTrim child.block_name = "ssl" then
    match child.current_ctx with
    | none => .ok st
    | some _ =>
      match e.from_config child with
      | .error _ => .ok st
      | .ok mat =>
        match mat.pem_key_result with
        | .error _ => .error .sslPemKeyFailed
        | .ok pem_key =>
          match e.key_from_pem_slice pem_key with
          | .error _ => .error .sslInvalidKey
          | .ok pri_key =>
            match mat.pem_cert_result with
            | .error _ => .error .sslPemCertFailed
            | .ok pem_cert =>
              match e.cert_from_pem_slice pem_cert with
              | .error _ => .error .sslInvalidCert
              | .ok cert =>
                match e.with_single_cert [cert] pri_key with
                | .error _ => .error .sslSingleCertFailed
                | .ok cfg => .ok (st.1, some cfg)
  else .ok st

/-- The `for child in &server_config.children` loop of `HttpServer::new`. -/
def processChildren (e : Externals) :
    HttpProcessor × Option Nat → List ConfigContext → Except Panic (HttpProcessor × Option Nat)
  | st, [] => .ok st
  | st, c :: cs =>
    match processChild e st c with
    | .error p => .error p
    | .ok st' => processChildren e st' cs

/-- The immutable runtime server (src/http/http_server.rs:127-133). -/
structure HttpServer where
  listener : Listener
  http_version : HttpVersion
  processor : HttpProcessor
  ssl : Option Nat
  running : Bool

/-- `HttpServer::new` (src/http/http_server.rs:140-225).  Resolves the server
block's context (panic when the slot is absent; null or mismatched pointer is
undefined behaviour, modelled fatal), reads `listen`, runs the child loop,
extracts the accumulated processor, binds the listener (`unwrap`: panic on
failure) and assembles the server with the running flag set. -/
def HttpServer.new (e : Externals) (cc : ConfigContext) : Except Panic HttpServer :=
  match cc.current_ctx with
  | none => .error .missingServerCtx
  | some none => .error .invalidServerCtx
  | some (some (.location _)) => .error .invalidServerCtx
  | some (some .sslData) => .error .invalidServerCtx
  | some (some (.server s)) =>
    let listen := s.listen
    match processChildren e (s.processor, none) cc.children with
    | .error p => .error p
    | .ok st =>
      if e.bindOk listen then
        .ok { listener := ⟨listen⟩
              http_version := s.get_http_version
              processor := st.1
              ssl := st.2
              running := true }
      else .error .bindFailed

/-- `stop` (src/http/http_server.rs:270-273): clears the running flag. -/
def HttpServer.stop (srv : HttpServer) : HttpServer :=
  { srv with running := false }

/-- Outcome of one `listener.incoming().next()` call, supplied by an oracle:
a connection (identified by a `Nat`), a would-block condition, another accept
error, or end of the listener (`None`). -/
inductive AcceptStep where
  | conn (id : Nat)
  | wouldBlock
  | errOther
  | closed
deriving DecidableEq, Repr

/-- Observable events of the accept-loop worker. -/
inductive LoopEvent where
  | setNonblocking
  | logNoRoutes
  | acceptAttempt
  | accepted (id : Nat)
  | dispatched (id : Nat)
  | logAcceptError
  | slept
  | logStopped
  | panicked
deriving DecidableEq, Repr

/-- The `while running_flag.load(..)` loop of the worker spawned by `start`
(src/http/http_server.rs:245-266).  `running` gives the flag's value at each
iteration (it is written concurrently by `stop`), `steps` the accept oracle,
`fuel` bounds the trace length.  Each iteration emits `acceptAttempt`, then a
connection is logged and dispatched, a would-block sleeps and retries, another
error is logged, and a closed listener breaks; leaving the loop logs the final
message. -/
def acceptLoop (running : Nat → Bool) (steps : Nat → AcceptStep) :
    Nat → Nat → List LoopEvent
  | 0, _ => []
  | fuel + 1, i =>
    if running i then
      LoopEvent.acceptAttempt ::
      match steps i with
      | .conn id =>
          LoopEvent.accepted id :: LoopEvent.dispatched id ::
            acceptLoop running steps fuel (i + 1)
      | .wouldBlock => LoopEvent.slept :: acceptLoop running steps fuel (i + 1)
      | .errOther => LoopEvent.logAcceptError :: acceptLoop running steps fuel (i + 1)
      | .closed => [LoopEvent.logStopped]
    else [LoopEvent.logStopped]

/-- The body of the worker thread spawned by `HttpServer.start`
(src/http/http_server.rs:235-267): set the listener non-blocking (`expect`:
panic on failure, `nbOk` is the oracle), then, if the processor is empty, log
`No routes configured for server` and return before any accept; otherwise run
the accept loop. -/
def startWorker (srv : HttpServer) (nbOk : Bool) (running : Nat → Bool)
    (steps : Nat → AcceptStep) (fuel : Nat) : List LoopEvent :=
  if nbOk then
    LoopEvent.setNonblocking ::
      (if srv.processor.is_empty then [LoopEvent.logNoRoutes]
       else acceptLoop running steps fuel 0)
  else [LoopEvent.panicked]

/-- The transport seen by one `handle_connection` call: the outcome of the
single bounded read (`Except.ok bytes` with `bytes.length ≤ 1024`, or a read
error), and whether `write_all` and `flush` succeed. -/
structure ConnStream where
  readResult : Except Unit (List Nat)
  writeOk : Bool
  flushOk : Bool

/-- Observable events of one connection handling. -/
inductive ConnEvent where
  | processCalled (req : List Nat)
  | wrote (bytes : List Nat)
  | flushed
deriving DecidableEq, Repr

/-- `handle_connection` (src/http/http_server.rs:320-341), parametric over the
external processor operation `process` and the fixed fallback constructor
`create404` (= `HttpProcessor::create_404_response(..).as_bytes()`, spec §6).
Returns the events performed on the stream and the `std::io::Result`.  A read
error propagates; zero bytes read is a clean close; otherwise exactly the `n`
read bytes go to `process`, its response (or the 404 fallback on failure) is
written, and the stream is flushed; a write or flush failure propagates after
the events performed so far. -/
def handle_connection (process : List Nat → Except Unit (List Nat))
    (create404 : HttpVersion → List Nat) (v : HttpVersion) (s : ConnStream) :
    List ConnEvent × Except Unit Unit :=
  match s.readResult with
  | .error _ => ([], .error ())
  | .ok bytes =>
    if bytes.length = 0 then ([], .ok ())
    else
      let response :=
        match process bytes with
        | .ok resp => resp
        | .error _ => create404 v
      if s.writeOk then
        if s.flushOk then ([.processCalled bytes, .wrote response, .flushed], .ok ())
        else ([.processCalled bytes, .wrote response], .error ())
      else ([.processCalled bytes], .error ())

/-! ## Concrete fixtures for witnesses and counterexamples -/

/-- Build-step externals for the witnesses: TLS loading fails, everything else
succeeds. -/
def extPlain : Externals :=
  { from_config := fun _ => .error ()
    key_from_pem_slice := fun _ => .ok 0
    cert_from_pem_slice := fun _ => .ok 0
    with_single_cert := fun _ _ => .ok 0
    bindOk := fun _ => true }

/-- A location child with path `/hello` and one `(200, handler 7)` pair. -/
def locHello : ConfigContext :=
  .mk "location" ["/hello"] [] (some (some (.location ⟨[(200, 7)]⟩))) none []

/-- A server block holding a fresh `HttpServerContext` and one location
child. -/
def ccServer : ConfigContext :=
  .mk "server" [] [] (some (some (.server HttpServerContext.new))) none [locHello]

/-- The server the build produces on `ccServer` with `extPlain`. -/
def srvHello : HttpServer :=
  { listener := ⟨"127.0.0.1:8080"⟩
    http_version := ⟨0⟩
    processor := ⟨[("/hello", 200, 7)]⟩
    ssl := none
    running := true }

/-- A location child with no positional arguments. -/
def locNoPath : ConfigContext := .mk "location" [] [] none none []

/-- A server block whose only child is the path-less location block. -/
def ccServerBadLoc : ConfigContext :=
  .mk "server" [] [] (some (some (.server HttpServerContext.new))) none [locNoPath]

/-- Externals whose socket bind always fails. -/
def extBindFail : Externals := { extPlain with bindOk := fun _ => false }

/-- A built server with an empty route table. -/
def srvNoRoutes : HttpServer :=
  { listener := ⟨"127.0.0.1:8080"⟩
    http_version := ⟨0⟩
    processor := HttpProcessor.new
    ssl := none
    running := true }

/-- A concrete echo-style processor operation for the witness. -/
def procEcho : List Nat → Except Unit (List Nat) := fun b => .ok (b ++ [9])

/-- A concrete fixed 404 constructor for the witness. -/
def fallback404 : HttpVersion → List Nat := fun v => [4, 0, 4, v.tag]

/-- A child block that cannot make the build loop panic: a `location` child
has a path and a live location context (or no context at all), and an `ssl`
child either has no context slot or fails already in `HttpSSL::from_config`
(the only TLS failure the source handles gracefully). -/
def GoodChild (e : Externals) (c : ConfigContext) : Prop :=
  (rustTrim c.block_name = "location" →
      (∃ path, c.block_args.head? = some path) ∧
      (c.current_ctx = none ∨ ∃ l, c.current_ctx = some (some (.location l)))) ∧
  (rustTrim c.block_name = "ssl" →
      c.current_ctx = none ∨ e.from_config c = .error ())

/-- Externals describing an invalid certificate/key configuration that the
external loader accepts: `HttpSSL::from_config` succeeds and both PEM exports
succeed, but the rustls `with_single_cert` step rejects the mismatched
material. -/
def extSslMismatch : Externals :=
  { from_config := fun _ => .ok { pem_key_result := .ok [1], pem_cert_result := .ok [2] }
    key_from_pem_slice := fun _ => .ok 1
    cert_from_pem_slice := fun _ => .ok 2
    with_single_cert := fun _ _ => .error ()
    bindOk := fun _ => true }

/-- An ssl child with a present context. -/
def sslChild : ConfigContext := .mk "ssl" [] [] (some (some .sslData)) none []

/-- A server block whose only child is the ssl block. -/
def ccServerSsl : ConfigContext :=
  .mk "server" [] [] (some (some (.server HttpServerContext.new))) none [sslChild]

/-- A config node with no context slot and, crucially, no directive
arguments. -/
def ccNoCtxNoArgs : ConfigContext := .mk "server" [] [] none none []

/-- A node with one directive argument and an absent context handle. -/
def ccNoCtxOneArg : ConfigContext := .mk "server" [] ["0.0.0.0:80"] none none []

/-! ## Helper lemmas -/

/-- Membership in the route table is preserved by the per-location
registration fold. -/
theorem mem_foldl_add_handler_of_mem (path : String) (prs : List (Nat × Nat))
    (p : HttpProcessor) (x : String × Nat × Nat) (hx : x ∈ p.handlers) :
    x ∈ (prs.foldl (fun q pr => q.add_handler path pr.1 pr.2) p).handlers := by
  induction prs generalizing p with
  | nil => exact hx
  | cons hd tl ih =>
      exact ih (p.add_handler path hd.1 hd.2)
        (by simp [HttpProcessor.add_handler]; exact Or.inl hx)

/-- Every pair fed to the per-location registration fold ends up in the route
table under the given path. -/
theorem mem_foldl_add_handler (path : String) (prs : List (Nat × Nat))
    (p : HttpProcessor) (code handler : Nat) (hpr : (code, handler) ∈ prs) :
    (path, code, handler) ∈ (prs.foldl (fun q pr => q.add_handler path pr.1 pr.2) p).handlers := by
  induction prs generalizing p with
  | nil => cases hpr
  | cons hd tl ih =>
      rcases List.mem_cons.mp hpr with h | h
      · subst h
        exact mem_foldl_add_handler_of_mem path tl (p.add_handler path code handler)
          (path, code, handler) (by simp [HttpProcessor.add_handler])
      · exact ih (p.add_handler path hd.1 hd.2) h

/-- A successful `processChild` step never removes route-table entries. -/
theorem processChild_preserves_mem (e : Externals) (st st' : HttpProcessor × Option Nat)
    (c : ConfigContext) (x : String × Nat × Nat) (hx : x ∈ st.1.handlers)
    (hok : processChild e st c = .ok st') : x ∈ st'.1.handlers := by
  unfold processChild at hok
  split at hok
  · split at hok
    · exact absurd hok (by simp)
    · split at hok
      · cases hok; exact hx
      · exact absurd hok (by simp)
      · simp only [Except.ok.injEq] at hok
        subst hok
        exact mem_foldl_add_handler_of_mem _ _ _ _ hx
      · exact absurd hok (by simp)
  · split at hok
    · split at hok
      · cases hok; exact hx
      · split at hok
        · cases hok; exact hx
        · split at hok
          · exact absurd hok (by simp)
          · split at hok
            · exact absurd hok (by simp)
            · split at hok
              · exact absurd hok (by simp)
              · split at hok
                · exact absurd hok (by simp)
                · split at hok
                  · exact absurd hok (by simp)
                  · cases hok; exact hx
    · cases hok; exact hx

/-- A successful child-loop run never removes route-table entries. -/
theorem processChildren_preserves_mem (e : Externals) (cs : List ConfigContext)
    (st st' : HttpProcessor × Option Nat) (x : String × Nat × Nat) (hx : x ∈ st.1.handlers)
    (hok : processChildren e st cs = .ok st') : x ∈ st'.1.handlers := by
  induction cs generalizing st with
  | nil => cases hok; exact hx
  | cons hd tl ih =>
      unfold processChildren at hok
      cases hstep : processChild e st hd with
      | error p => rw [hstep] at hok; cases hok
      | ok st1 =>
          rw [hstep] at hok
          exact ih st1 (processChild_preserves_mem e st st1 hd x hx hstep) hok

/-- Running the child loop over a list containing a well-formed `location`
child registers each of that child's `(status_code, handler)` pairs under the
child's path. -/
theorem processChildren_registers (e : Externals) (cs : List ConfigContext)
    (st st' : HttpProcessor × Option Nat) (child : ConfigContext) (l : HttpLocationContext)
    (path : String) (code handler : Nat) (hchild : child ∈ cs)
    (hname : rustTrim child.block_name = "location")
    (hpath : child.block_args.head? = some path)
    (hlctx : child.current_ctx = some (some (.location l)))
    (hpair : (code, handler) ∈ l.handlers)
    (hok : processChildren e st cs = .ok st') :
    (path, code, handler) ∈ st'.1.handlers := by
  induction cs generalizing st with
  | nil => cases hchild
  | cons hd tl ih =>
      unfold processChildren at hok
      cases hstep : processChild e st hd with
      | error p => rw [hstep] at hok; cases hok
      | ok st1 =>
          rw [hstep] at hok
          rcases List.mem_cons.mp hchild with h | h
          · subst h
            have hmem : (path, code, handler) ∈ st1.1.handlers := by
              unfold processChild at hstep
              rw [if_pos hname, hpath, hlctx] at hstep
              simp only [Except.ok.injEq] at hstep
              subst hstep
              exact mem_foldl_add_handler path _ st.1 code handler
                (by simpa [HttpLocationContext.take_handlers] using hpair)
            exact processChildren_preserves_mem e tl st1 st' _ hmem hok
          · exact ih st1 h hok

/-! ## Claim C1 -/

/-- C1: for a server-block `ConfigContext` whose children include `location`
blocks, `HttpServer::new` registers, for each location child with path `path`
(its first positional argument), every `(status_code, handler)` pair taken
from that child's location context into the server's processor under `path`;
after a successful build the processor has a handler for each such
`(path, status_code)` pair and `is_empty()` is `false`. -/
theorem build_registers_location_handlers
    (e : Externals) (cc : ConfigContext) (s : HttpServerContext)
    (child : ConfigContext) (l : HttpLocationContext)
    (path : String) (code handler : Nat) (srv : HttpServer)
    (hctx : cc.current_ctx = some (some (.server s)))
    (hchild : child ∈ cc.children)
    (hname : rustTrim child.block_name = "location")
    (hpath : child.block_args.head? = some path)
    (hlctx : child.current_ctx = some (some (.location l)))
    (hpair : (code, handler) ∈ l.handlers)
    (hok : HttpServer.new e cc = .ok srv) :
    (path, code, handler) ∈ srv.processor.handlers ∧
      srv.processor.has_handler path code = true ∧
      srv.processor.is_empty = false := by
  unfold HttpServer.new at hok
  rw [hctx] at hok
  dsimp only at hok
  cases hfold : processChildren e (s.processor, none) cc.children with
  | error p => rw [hfold] at hok; cases hok
  | ok st =>
      rw [hfold] at hok
      dsimp only at hok
      by_cases hbind : e.bindOk s.listen = true
      · rw [if_pos hbind] at hok
        cases hok
        have hmem := processChildren_registers e cc.children (s.processor, none) st
          child l path code handler hchild hname hpath hlctx hpair hfold
        refine ⟨hmem, ?_, ?_⟩
        · exact List.any_eq_true.mpr ⟨(path, code, handler), hmem, by simp⟩
        · simpa [HttpProcessor.is_empty, List.isEmpty_iff] using List.ne_nil_of_mem hmem
      · rw [if_neg hbind] at hok
        cases hok

/-- Witness for C1 at `ccServer`. -/
theorem build_registers_location_handlers_witness :
    ("/hello", 200, 7) ∈ srvHello.processor.handlers ∧
      srvHello.processor.has_handler "/hello" 200 = true ∧
      srvHello.processor.is_empty = false :=
  build_registers_location_handlers extPlain ccServer HttpServerContext.new locHello
    ⟨[(200, 7)]⟩ "/hello" 200 7 srvHello rfl
    (by simp [ccServer, ConfigContext.children, locHello]) (by decide) rfl rfl
    (by decide) rfl

/-! ## Claim C4 -/

/-- The child loop fails as soon as its list contains a `location` child with
no positional arguments: the path `expect` fires before the child's context
slot is even examined. -/
theorem processChildren_error_of_bad_location (e : Externals) (cs : List ConfigContext)
    (c : ConfigContext) (hc : c ∈ cs) (hname : rustTrim c.block_name = "location")
    (hargs : c.block_args = []) (st : HttpProcessor × Option Nat) :
    ∃ p, processChildren e st cs = .error p := by
  induction cs generalizing st with
  | nil => cases hc
  | cons hd tl ih =>
      unfold processChildren
      rcases List.mem_cons.mp hc with h | h
      · subst h
        have hstep : processChild e st c = .error .locationMissingPath := by
          unfold processChild
          rw [if_pos hname, hargs]
          rfl
        rw [hstep]
        exact ⟨_, rfl⟩
      · cases hstep : processChild e st hd with
        | error p => exact ⟨p, rfl⟩
        | ok st1 => exact ih h st1

/-- C4: a server-block `ConfigContext` containing a `location` child whose
positional-argument list is empty makes `HttpServer::new` fail with a fatal
configuration error (the `expect` panic, modelled as `Except.error`); the
location block is never silently skipped and no server is produced. -/
theorem location_without_path_fails_build (e : Externals) (cc : ConfigContext)
    (child : ConfigContext) (hchild : child ∈ cc.children)
    (hname : rustTrim child.block_name = "location")
    (hargs : child.block_args = []) :
    ∃ p, HttpServer.new e cc = .error p := by
  unfold HttpServer.new
  cases hcc : cc.current_ctx with
  | none => exact ⟨_, rfl⟩
  | some o =>
    cases o with
    | none => exact ⟨_, rfl⟩
    | some obj =>
      cases obj with
      | location l => exact ⟨_, rfl⟩
      | sslData => exact ⟨_, rfl⟩
      | server s =>
        dsimp only
        obtain ⟨p, hp⟩ := processChildren_error_of_bad_location e cc.children child
          hchild hname hargs (s.processor, none)
        rw [hp]
        exact ⟨p, rfl⟩

/-- Witness for C4 at `ccServerBadLoc`. -/
theorem location_without_path_fails_build_witness :
    ∃ p, HttpServer.new extPlain ccServerBadLoc = .error p :=
  location_without_path_fails_build extPlain ccServerBadLoc locNoPath
    (by simp [ccServerBadLoc, ConfigContext.children]) (by decide) rfl

/-! ## Claim C6 -/

/-- C6: when binding the listening socket to the configured address fails, the
build is fatal — `HttpServer::new` never produces a server — and, whenever the
child loop itself succeeded, the error propagated to the caller is precisely
the bind failure. -/
theorem bind_failure_fatal (e : Externals) (cc : ConfigContext) (s : HttpServerContext)
    (hctx : cc.current_ctx = some (some (.server s)))
    (hbind : e.bindOk s.listen = false) :
    (∃ p, HttpServer.new e cc = .error p) ∧
      (∀ st, processChildren e (s.processor, none) cc.children = .ok st →
        HttpServer.new e cc = .error .bindFailed) := by
  unfold HttpServer.new
  rw [hctx]
  dsimp only
  constructor
  · cases hfold : processChildren e (s.processor, none) cc.children with
    | error p => exact ⟨p, rfl⟩
    | ok st =>
        dsimp only
        rw [if_neg (by simp [hbind])]
        exact ⟨_, rfl⟩
  · intro st hst
    rw [hst]
    dsimp only
    rw [if_neg (by simp [hbind])]

/-- Witness for C6 at `ccServer` with a failing bind. -/
theorem bind_failure_fatal_witness :
    (∃ p, HttpServer.new extBindFail ccServer = .error p) ∧
      (∀ st, processChildren extBindFail (HttpServerContext.new.processor, none)
          ccServer.children = .ok st →
        HttpServer.new extBindFail ccServer = .error .bindFailed) :=
  bind_failure_fatal extBindFail ccServer HttpServerContext.new rfl rfl

/-! ## Claim C3 -/

/-- C3: for every server whose processor has no registered routes
(`is_empty()` is `true`), the accept-loop worker spawned by `start()` (with the
non-blocking switch succeeding) logs `No routes configured for server` and
returns immediately, never attempting to accept a connection. -/
theorem empty_processor_worker_exits_before_accept (srv : HttpServer)
    (running : Nat → Bool) (steps : Nat → AcceptStep) (fuel : Nat)
    (hempty : srv.processor.is_empty = true) :
    startWorker srv true running steps fuel =
        [LoopEvent.setNonblocking, LoopEvent.logNoRoutes] ∧
      LoopEvent.acceptAttempt ∉ startWorker srv true running steps fuel := by
  have h1 : startWorker srv true running steps fuel =
      [LoopEvent.setNonblocking, LoopEvent.logNoRoutes] := by
    simp [startWorker, hempty]
  refine ⟨h1, ?_⟩
  rw [h1]
  simp

/-- Witness for C3 at `srvNoRoutes`, with the accept oracle offering
connections that are never looked at. -/
theorem empty_processor_worker_exits_before_accept_witness :
    startWorker srvNoRoutes true (fun _ => true) (fun _ => .conn 0) 5 =
        [LoopEvent.setNonblocking, LoopEvent.logNoRoutes] ∧
      LoopEvent.acceptAttempt ∉
        startWorker srvNoRoutes true (fun _ => true) (fun _ => .conn 0) 5 :=
  empty_processor_worker_exits_before_accept srvNoRoutes (fun _ => true)
    (fun _ => .conn 0) 5 rfl

/-! ## Claim C5 -/

/-- C5: on a connection whose read returns `n > 0` bytes (at most the 1024
byte buffer), `handle_connection` submits exactly those bytes to the
processor's `process`; on success it writes the returned response, on failure
it writes the fixed 404 response for the server's configured HTTP version, and
in both cases it flushes after the write and returns success — a processor
failure never drops the connection. -/
theorem nonempty_read_processes_and_responds
    (process : List Nat → Except Unit (List Nat)) (create404 : HttpVersion → List Nat)
    (v : HttpVersion) (bytes : List Nat) (hn : 0 < bytes.length)
    (hb : bytes.length ≤ 1024) :
    (∀ resp, process bytes = .ok resp →
        handle_connection process create404 v ⟨.ok bytes, true, true⟩ =
          ([.processCalled bytes, .wrote resp, .flushed], .ok ())) ∧
      (process bytes = .error () →
        handle_connection process create404 v ⟨.ok bytes, true, true⟩ =
          ([.processCalled bytes, .wrote (create404 v), .flushed], .ok ())) := by
  have hlen : ¬ bytes.length = 0 := by omega
  constructor
  · intro resp hresp
    simp [handle_connection, hlen, hresp]
  · intro hresp
    simp [handle_connection, hlen, hresp]

/-- Witness for C5 on the two-byte request `[1, 2]`. -/
theorem nonempty_read_processes_and_responds_witness :
    (∀ resp, procEcho [1, 2] = .ok resp →
        handle_connection procEcho fallback404 ⟨0⟩ ⟨.ok [1, 2], true, true⟩ =
          ([.processCalled [1, 2], .wrote resp, .flushed], .ok ())) ∧
      (procEcho [1, 2] = .error () →
        handle_connection procEcho fallback404 ⟨0⟩ ⟨.ok [1, 2], true, true⟩ =
          ([.processCalled [1, 2], .wrote (fallback404 ⟨0⟩), .flushed], .ok ())) :=
  nonempty_read_processes_and_responds procEcho fallback404 ⟨0⟩ [1, 2]
    (by decide) (by decide)

/-! ## Claim C8 -/

/-- C8: a connection whose initial bounded read returns zero bytes is treated
as a clean close: `handle_connection` returns success, performs no write or
flush, and never invokes the processor. -/
theorem zero_read_clean_close (process : List Nat → Except Unit (List Nat))
    (create404 : HttpVersion → List Nat) (v : HttpVersion) (writeOk flushOk : Bool) :
    handle_connection process create404 v ⟨.ok [], writeOk, flushOk⟩ = ([], .ok ()) := by
  simp [handle_connection]

/-! ## Claim C2 -/

/-- One step of the child loop on a `GoodChild` succeeds and keeps the TLS
configuration disabled. -/
theorem processChild_ok_none (e : Externals) (proc0 : HttpProcessor)
    (c : ConfigContext) (hg : GoodChild e c) :
    ∃ proc, processChild e (proc0, none) c = .ok (proc, none) := by
  unfold processChild
  by_cases hloc : rustTrim c.block_name = "location"
  · rw [if_pos hloc]
    obtain ⟨⟨path, hpath⟩, hctx⟩ := hg.1 hloc
    rw [hpath]
    rcases hctx with h | ⟨l, h⟩ <;> rw [h]
    · exact ⟨proc0, rfl⟩
    · exact ⟨_, rfl⟩
  · rw [if_neg hloc]
    by_cases hssl : rustTrim c.block_name = "ssl"
    · rw [if_pos hssl]
      rcases hg.2 hssl with h | h
      · rw [h]
        exact ⟨proc0, rfl⟩
      · cases hc : c.current_ctx with
        | none => exact ⟨proc0, rfl⟩
        | some o => rw [h]; exact ⟨proc0, rfl⟩
    · rw [if_neg hssl]
      exact ⟨proc0, rfl⟩

/-- The whole child loop over `GoodChild`ren succeeds with TLS disabled. -/
theorem processChildren_ok_none (e : Externals) (cs : List ConfigContext)
    (hg : ∀ c ∈ cs, GoodChild e c) (proc0 : HttpProcessor) :
    ∃ proc, processChildren e (proc0, none) cs = .ok (proc, none) := by
  induction cs generalizing proc0 with
  | nil => exact ⟨proc0, rfl⟩
  | cons hd tl ih =>
      obtain ⟨p1, h1⟩ := processChild_ok_none e proc0 hd (hg hd (List.mem_cons_self hd tl))
      obtain ⟨p2, h2⟩ := ih (fun c hc => hg c (List.mem_cons_of_mem hd hc)) p1
      refine ⟨p2, ?_⟩
      unfold processChildren
      rw [h1]
      exact h2

/-- Counterexample to C2 as stated: with an invalid certificate/key
configuration that only fails at the rustls `with_single_cert` step (a
mismatched pair each of whose halves parses), `HttpServer::new` panics
(`unwrap` at src/http/http_server.rs:197) instead of falling back to a plain
server, so an invalid certificate/key configuration can crash the build. -/
theorem ssl_failure_crashes_build_counterexample :
    HttpServer.new extSslMismatch ccServerSsl = .error .sslSingleCertFailed := by
  rfl

/-- C2 (amended): when the ssl child's failure happens in
`HttpSSL::from_config` — the only TLS failure the source handles — the build
logs it and goes on: provided the other children are well-formed and the bind
succeeds, `HttpServer::new` still produces a running server with TLS disabled
(`ssl` is `None`).  Failures of the later PEM/rustls steps panic the build
instead. -/
theorem ssl_from_config_failure_nonfatal (e : Externals) (cc : ConfigContext)
    (s : HttpServerContext)
    (hctx : cc.current_ctx = some (some (.server s)))
    (hssl : ∃ child ∈ cc.children, rustTrim child.block_name = "ssl" ∧
        (child.current_ctx).isSome = true ∧ e.from_config child = .error ())
    (hgood : ∀ child ∈ cc.children, GoodChild e child)
    (hbind : e.bindOk s.listen = true) :
    ∃ srv, HttpServer.new e cc = .ok srv ∧ srv.ssl = none ∧ srv.running = true := by
  obtain ⟨proc, hfold⟩ := processChildren_ok_none e cc.children hgood s.processor
  refine ⟨{ listener := ⟨s.listen⟩
            http_version := s.get_http_version
            processor := proc
            ssl := none
            running := true }, ?_, rfl, rfl⟩
  unfold HttpServer.new
  rw [hctx]
  dsimp only
  rw [hfold]
  dsimp only
  rw [if_pos hbind]

/-- Witness for the amended C2: the loader itself rejects the ssl child, and
the build still yields a running plain-mode server. -/
theorem ssl_from_config_failure_nonfatal_witness :
    ∃ srv, HttpServer.new extPlain ccServerSsl = .ok srv ∧ srv.ssl = none ∧
      srv.running = true :=
  ssl_from_config_failure_nonfatal extPlain ccServerSsl HttpServerContext.new rfl
    ⟨sslChild, by simp [ccServerSsl, ConfigContext.children], by decide, rfl, rfl⟩
    (by
      intro c hc
      simp only [ccServerSsl, ConfigContext.children, List.mem_singleton] at hc
      subst hc
      exact ⟨fun h => absurd h (by decide), fun _ => Or.inr rfl⟩)
    rfl

/-! ## Claim C7 -/

/-- Counterexample to C7 as stated: a `ConfigContext` whose `current_ctx`
handle is absent but whose `current_cmd_args` is empty does not silently
no-op — both directive handlers hit the `first().unwrap()` panic before ever
looking at the handle. -/
theorem null_ctx_silent_noop_counterexample :
    ccNoCtxNoArgs.current_ctx = none ∧
      handle_set_listen ccNoCtxNoArgs = .error .unwrapNone ∧
      handle_set_server_name ccNoCtxNoArgs = .error .unwrapNone :=
  ⟨rfl, rfl, rfl⟩

/-- C7 (amended): for every `ConfigContext` whose `current_cmd_args` is
nonempty and whose `current_ctx` handle is absent or null,
`handle_set_listen` and `handle_set_server_name` silently no-op: they return
without error and leave the node unchanged. -/
theorem null_ctx_noop_with_args (cc : ConfigContext) (arg : String) (rest : List String)
    (hargs : cc.current_cmd_args = arg :: rest)
    (hctx : cc.current_ctx = none ∨ cc.current_ctx = some none) :
    handle_set_listen cc = .ok cc ∧ handle_set_server_name cc = .ok cc := by
  rcases hctx with h | h <;>
    exact ⟨by simp [handle_set_listen, hargs, h], by simp [handle_set_server_name, hargs, h]⟩

/-- Witness for the amended C7 at `ccNoCtxOneArg`. -/
theorem null_ctx_noop_with_args_witness :
    handle_set_listen ccNoCtxOneArg = .ok ccNoCtxOneArg ∧
      handle_set_server_name ccNoCtxOneArg = .ok ccNoCtxOneArg :=
  null_ctx_noop_with_args ccNoCtxOneArg "0.0.0.0:80" [] rfl (Or.inl rfl)

/-! ## Claim C9 -/

/-- C9: a freshly created `HttpServerContext` has `listen` initialised to
`127.0.0.1:8080`; the other server-block directive (`server_name`) never
touches that field; and a server built from a context whose `listen` still has
the default value is bound to `127.0.0.1:8080`. -/
theorem default_listen_address (e : Externals) (cc : ConfigContext)
    (s : HttpServerContext) (srv : HttpServer)
    (hctx : cc.current_ctx = some (some (.server s)))
    (hdefault : s.listen = "127.0.0.1:8080")
    (hok : HttpServer.new e cc = .ok srv) :
    HttpServerContext.new.listen = "127.0.0.1:8080" ∧
      (∀ t name, (HttpServerContext.add_server_name t name).listen = t.listen) ∧
      srv.listener.addr = "127.0.0.1:8080" := by
  refine ⟨rfl, fun t name => rfl, ?_⟩
  unfold HttpServer.new at hok
  rw [hctx] at hok
  dsimp only at hok
  cases hfold : processChildren e (s.processor, none) cc.children with
  | error p => rw [hfold] at hok; cases hok
  | ok st =>
      rw [hfold] at hok
      dsimp only at hok
      by_cases hbind : e.bindOk s.listen = true
      · rw [if_pos hbind] at hok
        cases hok
        exact hdefault
      · rw [if_neg hbind] at hok
        cases hok

/-- Witness for C9 at `ccServer`, whose server context is fresh. -/
theorem default_listen_address_witness :
    HttpServerContext.new.listen = "127.0.0.1:8080" ∧
      (∀ t name, (HttpServerContext.add_server_name t name).listen = t.listen) ∧
      srvHello.listener.addr = "127.0.0.1:8080" :=
  default_listen_address extPlain ccServer HttpServerContext.new srvHello rfl rfl rfl

/-! ## Claim C10 -/

/-- C10: both directive handlers unwrap the first element of
`current_cmd_args` before checking the context handle, so on a node with empty
`current_cmd_args` they panic — whatever the state of `current_ctx`, including
an absent handle where the call would otherwise silently no-op. -/
theorem empty_cmd_args_unwrap_panics (cc : ConfigContext)
    (hargs : cc.current_cmd_args = []) :
    handle_set_listen cc = .error .unwrapNone ∧
      handle_set_server_name cc = .error .unwrapNone := by
  constructor
  · unfold handle_set_listen
    rw [hargs]
    rfl
  · unfold handle_set_server_name
    rw [hargs]
    rfl

/-- Witness for C10 at `ccNoCtxNoArgs` (context handle absent). -/
theorem empty_cmd_args_unwrap_panics_witness :
    handle_set_listen ccNoCtxNoArgs = .error .unwrapNone ∧
      handle_set_server_name ccNoCtxNoArgs = .error .unwrapNone :=
  empty_cmd_args_unwrap_panics ccNoCtxNoArgs rfl
